import Mathlib

/-!
Verification development for the job-application backend
(`job_agents/job_scraper.py`, `job_agents/job_finder_agent.py`,
`workflow.py`, `app.py`).

The Python code is shallowly embedded: pure functions become Lean
functions over `String`/`List`; the browser, the content generator and
the clock are modelled as explicit oracle inputs describing the outcome
of each external step; Python exceptions are modelled with `Except` and
`try/except` blocks as total matches over the raised value.
-/

/- ## Python string primitives -/

/-- Python list/str prefix test over character lists. -/
def isPrefixList : List Char → List Char → Bool
  | [], _ => true
  | _ :: _, [] => false
  | a :: as, b :: bs => a == b && isPrefixList as bs

/-- Python substring test `sub in s` over character lists: `sub` occurs
as a contiguous segment of `s` (the empty string occurs in every string). -/
def containsSeg (sub : List Char) : List Char → Bool
  | [] => sub.isEmpty
  | c :: rest => isPrefixList sub (c :: rest) || containsSeg sub rest

/-- Python `sub in s` for strings. -/
def pyIn (sub s : String) : Bool := containsSeg sub.data s.data

/-- Python `str.lower()` restricted to ASCII case mapping (all patterns
compared by the code are ASCII, and ASCII characters are lowered
characterwise exactly as `Char.toLower` does). -/
def pyLower (s : String) : String := ⟨s.data.map Char.toLower⟩

/-- Python `str.startswith(p)`. -/
def pyStartsWith (p s : String) : Bool := isPrefixList p.data s.data

/-- Python `str.split(sep)` for a one-character separator: splits at every
occurrence, keeping empty segments (`"".split(sep) == [""]`). -/
def pySplitChar (sep : Char) : List Char → List (List Char)
  | [] => [[]]
  | c :: rest =>
    match pySplitChar sep rest with
    | [] => [[]]
    | seg :: segs => if c = sep then [] :: seg :: segs else (c :: seg) :: segs

/-- Python `str.split(sep, 1)`: the part before the first occurrence of
`sep`, and the remainder after it when `sep` occurs. -/
def splitFirst (sep : Char) : List Char → List Char × Option (List Char)
  | [] => ([], none)
  | c :: rest =>
    if c = sep then ([], some rest)
    else
      let r := splitFirst sep rest
      (c :: r.1, r.2)

/-- Whitespace recognised by Python `str.split()` (ASCII whitespace;
non-ASCII Unicode whitespace does not occur in the profile data). -/
def isPySpace (c : Char) : Bool :=
  c = ' ' || c = '\t' || c = '\n' || c = '\r' || c.toNat = 11 || c.toNat = 12

/-- Helper for `str.split()`: accumulates the current word (reversed). -/
def splitWsAux (acc : List Char) : List Char → List (List Char)
  | [] => if acc.isEmpty then [] else [acc.reverse]
  | c :: rest =>
    if isPySpace c then
      if acc.isEmpty then splitWsAux [] rest
      else acc.reverse :: splitWsAux [] rest
    else splitWsAux (c :: acc) rest

/-- Python `str.split()` with no argument: split on whitespace runs,
dropping empty fields. -/
def pySplitWs (s : String) : List String :=
  (splitWsAux [] s.data).map fun l => ⟨l⟩

/-- Hexadecimal digit test used by `urllib.parse.unquote`. -/
def isHexDigitChar (c : Char) : Bool :=
  ('0' ≤ c && c ≤ '9') || ('a' ≤ c && c ≤ 'f') || ('A' ≤ c && c ≤ 'F')

/-- Value of a hexadecimal digit. -/
def hexVal (c : Char) : Nat :=
  if '0' ≤ c && c ≤ '9' then c.toNat - 48
  else if 'a' ≤ c && c ≤ 'f' then c.toNat - 87
  else c.toNat - 55

/-- `urllib.parse.unquote_plus`: `+` becomes a space, `%xy` percent-escapes
are decoded, malformed escapes are kept literally.  Multi-byte UTF-8
escape sequences (bytes ≥ 0x80) are decoded byte-per-byte here rather
than as UTF-8; this cannot change whether the result equals an ASCII
digit string such as the placeholder ids, which is all the code compares
the decoded value against. -/
def unquote_plus : List Char → List Char
  | [] => []
  | '+' :: rest => ' ' :: unquote_plus rest
  | '%' :: a :: b :: rest =>
    if isHexDigitChar a && isHexDigitChar b then
      Char.ofNat (16 * hexVal a + hexVal b) :: unquote_plus rest
    else '%' :: unquote_plus (a :: b :: rest)
  | c :: rest => c :: unquote_plus rest

/-- The query component extracted by `urllib.parse.urlparse(url).query`:
after CPython's sanitisation (leading C0-control/space characters
stripped, tab/CR/LF removed everywhere), the fragment is everything after
the first `#`, and the query is everything after the first `?` of what
remains.  Scheme and netloc parsing cannot contain or move a `?` or `#`,
so it does not affect the query component. -/
def urlparse_query (url : String) : String :=
  let cleaned :=
    (url.data.dropWhile fun c => c.toNat ≤ 32).filter
      fun c => !(c = '\t' || c = '\r' || c = '\n')
  let noFrag := (splitFirst '#' cleaned).1
  match (splitFirst '?' noFrag).2 with
  | some q => ⟨q⟩
  | none => ""

/-- One `name=value` pair of `urllib.parse.parse_qsl` with the default
settings (`keep_blank_values=False`, separator `&`): empty segments,
segments without `=`, and pairs with an empty value are dropped; names
and values are `unquote_plus`-decoded. -/
def pqPair (pair : List Char) : Option (String × String) :=
  if pair.isEmpty then none
  else
    let s := splitFirst '=' pair
    match s.2 with
    | none => none
    | some value =>
      if value.isEmpty then none
      else some (⟨unquote_plus s.1⟩, ⟨unquote_plus value⟩)

/-- `urllib.parse.parse_qs(qs).get(key, [None])[0]`: the first value bound
to `key` in the query string, if any. -/
def parse_qs_first (qs : String) (key : String) : Option String :=
  (((pySplitChar '&' qs.data).filterMap pqPair).find? fun p => p.1 = key).map
    fun p => p.2

/- ## Link classifier (`is_valid_job_url`, job_scraper.py:25) -/

/-- Search-results-page patterns rejected by `is_valid_job_url`. -/
def invalid_patterns : List String :=
  ["/vacatures", "/jobs-srch", "jobs?q=", "search/jobs", "…", "see listing", "see job"]

/-- Known placeholder Glassdoor job ids rejected by `is_valid_job_url`. -/
def placeholder_ids : List String :=
  ["123456", "654321", "789012", "345678", "901234", "567890"]

/-- Direct-job-link patterns accepted by `is_valid_job_url`. -/
def valid_patterns : List String :=
  ["indeed.com/viewjob?jk=", "indeed.com/rc/clk?jk=", "glassdoor.com/job-listing/",
   "linkedin.com/jobs/view/", "careers.", "/career/", "/jobs/"]

/-- Known job aggregators whose non-matching links are rejected. -/
def job_boards : List String := ["indeed.com", "glassdoor.com", "linkedin.com"]

/-- `query_params.get('jl', [None])[0]` on `urlparse(url).query`. -/
def glassdoor_job_id (url : String) : Option String :=
  parse_qs_first (urlparse_query url) "jl"

/-- `is_valid_job_url` (job_scraper.py:25): rejects the empty string and
the unavailable sentinel, then search-results patterns, then Glassdoor
placeholder ids, then accepts known direct-link patterns, rejects other
aggregator links, and accepts anything else. -/
def is_valid_job_url (url : String) : Bool :=
  if url = "" || url = "URL_NOT_AVAILABLE" then false
  else if invalid_patterns.any (fun p => pyIn p (pyLower url)) then false
  else if pyIn "glassdoor.com" (pyLower url) &&
      (match glassdoor_job_id url with
       | some j => placeholder_ids.contains j
       | none => false) then false
  else if valid_patterns.any (fun p => pyIn p (pyLower url)) then true
  else if job_boards.any (fun b => pyIn b (pyLower url)) then false
  else true

/- ## Lemmas about the string primitives -/

theorem isPrefixList_map (f : Char → Char) (a : List Char) :
    ∀ b : List Char, isPrefixList a b = true →
      isPrefixList (a.map f) (b.map f) = true := by
  induction a with
  | nil => intro b _; simp [isPrefixList]
  | cons x xs ih =>
    intro b h
    cases b with
    | nil => simp [isPrefixList] at h
    | cons y ys =>
      simp only [isPrefixList, Bool.and_eq_true, beq_iff_eq] at h
      simp only [List.map_cons, isPrefixList, Bool.and_eq_true, beq_iff_eq]
      exact ⟨by rw [h.1], ih ys h.2⟩

theorem containsSeg_map (f : Char → Char) (sub : List Char) :
    ∀ s : List Char, containsSeg sub s = true →
      containsSeg (sub.map f) (s.map f) = true := by
  intro s
  induction s with
  | nil =>
    intro h
    simp only [containsSeg] at h ⊢
    cases sub with
    | nil => rfl
    | cons c cs => simp [List.isEmpty] at h
  | cons c rest ih =>
    intro h
    simp only [containsSeg, Bool.or_eq_true] at h ⊢
    rcases h with h | h
    · exact Or.inl (isPrefixList_map f sub (c :: rest) h)
    · exact Or.inr (ih h)

theorem pyIn_pyLower_of_pyIn (p url : String) (hfix : pyLower p = p)
    (h : pyIn p url = true) : pyIn p (pyLower url) = true := by
  have h2 := containsSeg_map Char.toLower p.data url.data h
  have h4 : p.data.map Char.toLower = p.data := congrArg String.data hfix
  rw [pyIn]
  rw [show (pyLower url).data = url.data.map Char.toLower from rfl, ← h4]
  exact h2

/- ## Claim C7 and C8 theorems -/

/-- Claim C7: every URL string containing a truncation marker or one of the
fixed search-results-page path fragments is classified Rejected
(`is_valid_job_url` returns false). -/
theorem c7_search_patterns_rejected (url p : String)
    (hmem : p ∈ invalid_patterns) (h : pyIn p url = true) :
    is_valid_job_url url = false := by
  have hfix : pyLower p = p := by
    simp only [invalid_patterns, List.mem_cons, List.not_mem_nil, or_false] at hmem
    rcases hmem with rfl | rfl | rfl | rfl | rfl | rfl | rfl <;> rfl
  have h2 : pyIn p (pyLower url) = true := pyIn_pyLower_of_pyIn p url hfix h
  have hany : (invalid_patterns.any fun q => pyIn q (pyLower url)) = true :=
    List.any_eq_true.mpr ⟨p, hmem, h2⟩
  unfold is_valid_job_url
  rw [hany]
  simp

/-- Witness for C7 at a concrete truncated search-results URL. -/
theorem c7_witness :
    ("jobs?q=" ∈ invalid_patterns ∧ pyIn "jobs?q=" "https://nl.indeed.com/jobs?q=x" = true)
    ∧ is_valid_job_url "https://nl.indeed.com/jobs?q=x" = false :=
  ⟨⟨by decide, by decide⟩,
   c7_search_patterns_rejected "https://nl.indeed.com/jobs?q=x" "jobs?q=" (by decide) (by decide)⟩

/-- Claim C8: every Glassdoor URL whose extracted `jl` query parameter is
one of the known placeholder ids is classified Rejected. -/
theorem c8_placeholder_rejected (url jid : String)
    (hg : pyIn "glassdoor.com" (pyLower url) = true)
    (hid : glassdoor_job_id url = some jid)
    (hmem : jid ∈ placeholder_ids) :
    is_valid_job_url url = false := by
  have hc : placeholder_ids.contains jid = true := by
    simp only [placeholder_ids, List.mem_cons, List.not_mem_nil, or_false] at hmem
    rcases hmem with rfl | rfl | rfl | rfl | rfl | rfl <;> rfl
  unfold is_valid_job_url
  rw [hid, hg]
  simp [hc, hmem]

/-- Witness for C8 at a concrete Glassdoor URL with placeholder id 123456. -/
theorem c8_witness :
    (pyIn "glassdoor.com" (pyLower "https://www.glassdoor.com/partner/jobListing.htm?jl=123456") = true
     ∧ glassdoor_job_id "https://www.glassdoor.com/partner/jobListing.htm?jl=123456" = some "123456"
     ∧ "123456" ∈ placeholder_ids)
    ∧ is_valid_job_url "https://www.glassdoor.com/partner/jobListing.htm?jl=123456" = false :=
  ⟨⟨by decide, by decide, by decide⟩,
   c8_placeholder_rejected "https://www.glassdoor.com/partner/jobListing.htm?jl=123456"
     "123456" (by decide) (by decide) (by decide)⟩

/- ## Link resolver (`scrape_indeed_job_url`, `scrape_glassdoor_job_url`,
`scrape_job_url`, job_scraper.py:90-264) -/

/-- A Python exception surfaced by a Playwright call: either
`PlaywrightTimeoutError` or any other exception with its message. -/
inductive PyErr where
  | timeoutError : PyErr
  | exception : String → PyErr
deriving DecidableEq

/-- Oracle describing the outcome of each page step performed by
`scrape_indeed_job_url`: `page.goto`, `page.wait_for_selector` on the
results container, `job_cards.count()`, and the first card's `data-jk`
attribute (absent attribute is `Except.ok none`). -/
structure IndeedPage where
  gotoOutcome : Except PyErr Unit
  waitSelectorOutcome : Except PyErr Unit
  countOutcome : Except PyErr Nat
  dataJkOutcome : Except PyErr (Option String)

/-- Body of the `try` block of `scrape_indeed_job_url` (job_scraper.py:110-143):
navigate, wait for `.jobsearch-ResultsList`, count `.job_seen_beacon` cards,
return `None` on zero cards, read `data-jk` of the first card and
synthesize the canonical view URL, or `None` if the attribute is absent. -/
def indeedTryBody (page : IndeedPage) : Except PyErr (Option String) := do
  let _ ← page.gotoOutcome
  let _ ← page.waitSelectorOutcome
  let count ← page.countOutcome
  if count = 0 then
    return none
  else
    let jobId ← page.dataJkOutcome
    match jobId with
    | some jid => return some ("https://nl.indeed.com/viewjob?jk=" ++ jid)
    | none => return none

/-- `scrape_indeed_job_url` (job_scraper.py:90): the `try` body with
`except PlaywrightTimeoutError` and `except Exception` both returning
`None` (the page is closed in `finally` on every path). -/
def scrape_indeed_job_url (page : IndeedPage) : Option String :=
  match indeedTryBody page with
  | Except.ok v => v
  | Except.error PyErr.timeoutError => none
  | Except.error (PyErr.exception _) => none

/-- Oracle for the page steps of `scrape_glassdoor_job_url`: `page.goto`,
`wait_for_selector` on the listing container, `job_listings.count()`,
`job_link.count()`, and the first link's `href` attribute. -/
structure GlassdoorPage where
  gotoOutcome : Except PyErr Unit
  waitSelectorOutcome : Except PyErr Unit
  listingCountOutcome : Except PyErr Nat
  linkCountOutcome : Except PyErr Nat
  hrefOutcome : Except PyErr (Option String)

/-- Body of the `try` block of `scrape_glassdoor_job_url`
(job_scraper.py:175-215): navigate, wait for the listing selector, return
`None` on zero listings; if the first listing has a link with a truthy
`href`, normalize a relative path to an absolute URL, else `None`. -/
def glassdoorTryBody (page : GlassdoorPage) : Except PyErr (Option String) := do
  let _ ← page.gotoOutcome
  let _ ← page.waitSelectorOutcome
  let count ← page.listingCountOutcome
  if count = 0 then
    return none
  else
    let linkCount ← page.linkCountOutcome
    if linkCount > 0 then
      let href ← page.hrefOutcome
      match href with
      | some h =>
        if h ≠ "" then
          return some (if pyStartsWith "/" h then "https://www.glassdoor.com" ++ h else h)
        else
          return none
      | none => return none
    else
      return none

/-- `scrape_glassdoor_job_url` (job_scraper.py:155): the `try` body with
both `except` clauses returning `None`. -/
def scrape_glassdoor_job_url (page : GlassdoorPage) : Option String :=
  match glassdoorTryBody page with
  | Except.ok v => v
  | Except.error PyErr.timeoutError => none
  | Except.error (PyErr.exception _) => none

/-- Page oracles available to one `scrape_job_url` call. -/
structure ScrapeEnv where
  indeedPage : IndeedPage
  glassdoorPage : GlassdoorPage

/-- Result of `scrape_job_url`, instrumented with whether any page
navigation (a source-specific scraper) was invoked. -/
structure ScrapeResult where
  url : Option String
  navigated : Bool
deriving DecidableEq

/-- `scrape_job_url` (job_scraper.py:227): returns `None` when Playwright
is unavailable; otherwise dispatches on the lowercased source URL to the
Indeed or Glassdoor scraper, and returns `None` for any other source
without invoking a scraper (the browser is closed in `finally`). -/
def scrape_job_url (playwright_available : Bool) (env : ScrapeEnv)
    (source_url : String) : ScrapeResult :=
  if playwright_available = false then { url := none, navigated := false }
  else if pyIn "indeed" (pyLower source_url) then
    { url := scrape_indeed_job_url env.indeedPage, navigated := true }
  else if pyIn "glassdoor" (pyLower source_url) then
    { url := scrape_glassdoor_job_url env.glassdoorPage, navigated := true }
  else { url := none, navigated := false }

/-- Claim C5: the link resolver never propagates an exception past its
boundary — every raised error (timeouts included) is absorbed into the
`None` outcome; zero results and a missing identifier attribute also
yield `None`; and a source hint other than Indeed/Glassdoor yields `None`
without attempting any navigation. -/
theorem c5_resolver_never_raises
    (w : Except PyErr Unit) (c : Except PyErr Nat)
    (d : Except PyErr (Option String)) (n : Nat)
    (pw : Bool) (env : ScrapeEnv) (src : String) :
    (∀ (page : IndeedPage) (err : PyErr),
      indeedTryBody page = Except.error err → scrape_indeed_job_url page = none)
    ∧ (∀ (gpage : GlassdoorPage) (err : PyErr),
      glassdoorTryBody gpage = Except.error err → scrape_glassdoor_job_url gpage = none)
    ∧ scrape_indeed_job_url
        { gotoOutcome := Except.error PyErr.timeoutError, waitSelectorOutcome := w,
          countOutcome := c, dataJkOutcome := d } = none
    ∧ scrape_indeed_job_url
        { gotoOutcome := Except.ok (), waitSelectorOutcome := Except.error PyErr.timeoutError,
          countOutcome := c, dataJkOutcome := d } = none
    ∧ scrape_indeed_job_url
        { gotoOutcome := Except.ok (), waitSelectorOutcome := Except.ok (),
          countOutcome := Except.ok 0, dataJkOutcome := d } = none
    ∧ scrape_indeed_job_url
        { gotoOutcome := Except.ok (), waitSelectorOutcome := Except.ok (),
          countOutcome := Except.ok (n + 1), dataJkOutcome := Except.ok none } = none
    ∧ scrape_glassdoor_job_url
        { gotoOutcome := Except.ok (), waitSelectorOutcome := Except.ok (),
          listingCountOutcome := Except.ok 0, linkCountOutcome := c,
          hrefOutcome := d } = none
    ∧ (pyIn "indeed" (pyLower src) = false → pyIn "glassdoor" (pyLower src) = false →
        scrape_job_url pw env src = { url := none, navigated := false }) := by
  refine ⟨?_, ?_, rfl, rfl, rfl, ?_, rfl, ?_⟩
  · intro page err h
    unfold scrape_indeed_job_url
    rw [h]
    cases err <;> rfl
  · intro gpage err h
    unfold scrape_glassdoor_job_url
    rw [h]
    cases err <;> rfl
  · simp [scrape_indeed_job_url, indeedTryBody, bind, Except.bind, pure, Except.pure]
  · intro h1 h2
    cases pw <;> simp [scrape_job_url, h1, h2]

/-- Witness for C5 at concrete failing environments and an unsupported
source hint. -/
theorem c5_witness :
    (indeedTryBody
        { gotoOutcome := Except.error PyErr.timeoutError, waitSelectorOutcome := Except.ok (),
          countOutcome := Except.ok 0, dataJkOutcome := Except.ok none }
      = Except.error PyErr.timeoutError
     ∧ glassdoorTryBody
        { gotoOutcome := Except.error (PyErr.exception "browser crashed"),
          waitSelectorOutcome := Except.ok (), listingCountOutcome := Except.ok 0,
          linkCountOutcome := Except.ok 0, hrefOutcome := Except.ok none }
      = Except.error (PyErr.exception "browser crashed")
     ∧ pyIn "indeed" (pyLower "https://monster.com/j/1") = false
     ∧ pyIn "glassdoor" (pyLower "https://monster.com/j/1") = false)
    ∧ scrape_indeed_job_url
        { gotoOutcome := Except.error PyErr.timeoutError, waitSelectorOutcome := Except.ok (),
          countOutcome := Except.ok 0, dataJkOutcome := Except.ok none } = none
    ∧ scrape_glassdoor_job_url
        { gotoOutcome := Except.error (PyErr.exception "browser crashed"),
          waitSelectorOutcome := Except.ok (), listingCountOutcome := Except.ok 0,
          linkCountOutcome := Except.ok 0, hrefOutcome := Except.ok none } = none
    ∧ scrape_job_url true
        { indeedPage :=
            { gotoOutcome := Except.ok (), waitSelectorOutcome := Except.ok (),
              countOutcome := Except.ok 0, dataJkOutcome := Except.ok none },
          glassdoorPage :=
            { gotoOutcome := Except.ok (), waitSelectorOutcome := Except.ok (),
              listingCountOutcome := Except.ok 0, linkCountOutcome := Except.ok 0,
              hrefOutcome := Except.ok none } }
        "https://monster.com/j/1" = { url := none, navigated := false } := by
  have h := c5_resolver_never_raises (Except.ok ()) (Except.ok 0) (Except.ok none) 0 true
    { indeedPage :=
        { gotoOutcome := Except.ok (), waitSelectorOutcome := Except.ok (),
          countOutcome := Except.ok 0, dataJkOutcome := Except.ok none },
      glassdoorPage :=
        { gotoOutcome := Except.ok (), waitSelectorOutcome := Except.ok (),
          listingCountOutcome := Except.ok 0, linkCountOutcome := Except.ok 0,
          hrefOutcome := Except.ok none } }
    "https://monster.com/j/1"
  refine ⟨⟨rfl, rfl, by decide, by decide⟩, ?_, ?_, ?_⟩
  · exact h.1 _ PyErr.timeoutError rfl
  · exact h.2.1 _ (PyErr.exception "browser crashed") rfl
  · exact h.2.2.2.2.2.2.2 (by decide) (by decide)

/- ## Job records and the enrichment pipeline
(`enrich_jobs_with_urls`, job_scraper.py:267-338) -/

/-- One job dictionary as produced by `JobPosting.model_dump()`
(models.py) and passed through the pipeline.  The `url_verified` and
`url_note` keys are absent (`none`) until the enrichment pipeline writes
them. -/
structure Job where
  title : String := ""
  company : String := ""
  location : String := ""
  posting_date : String := "Recently"
  url : String := ""
  description : String := ""
  requirements : List String := []
  skills : List String := []
  match_score : Int := 0
  url_verified : Option Bool := none
  url_note : Option String := none
deriving DecidableEq

/-- The scrape performed for one queued job (job_scraper.py:311-317):
`real_url` stays `None` unless the original URL mentions indeed or
glassdoor, in which case the corresponding scraper result is used.  The
scraper outcomes are supplied as oracles `ri`/`rg`. -/
def tryScrapeUrl (ri rg : Job → Option String) (job : Job) : Option String :=
  if pyIn "indeed" (pyLower job.url) then ri job
  else if pyIn "glassdoor" (pyLower job.url) then rg job
  else none

/-- Number of scraper invocations (resolution attempts) performed for one
queued job: one when a source-specific scraper is called, zero otherwise. -/
def scrapeAttempted (job : Job) : Nat :=
  if pyIn "indeed" (pyLower job.url) then 1
  else if pyIn "glassdoor" (pyLower job.url) then 1
  else 0

/-- Update of one queued job (job_scraper.py:319-326): on a successful
scrape the URL is replaced and marked verified; otherwise the URL becomes
the unavailable sentinel, unverified, with a manual-lookup note. -/
def enrichOne (ri rg : Job → Option String) (job : Job) : Job :=
  match tryScrapeUrl ri rg job with
  | some real_url => { job with url := real_url, url_verified := some true }
  | none =>
    { job with
      url := "URL_NOT_AVAILABLE", url_verified := some false,
      url_note := some "Direct job link could not be found. Search manually on job board." }

/-- The first loop of `enrich_jobs_with_urls` (job_scraper.py:287-293):
jobs with a valid URL are appended to `enriched_jobs`, the others to
`jobs_to_scrape`, both in input order. -/
def splitJobs : List Job → List Job × List Job
  | [] => ([], [])
  | j :: rest =>
    let r := splitJobs rest
    if is_valid_job_url j.url then (j :: r.1, r.2) else (r.1, j :: r.2)

/-- Result of one `enrich_jobs_with_urls` call, instrumented with the
number of scraper invocations and whether the per-batch browser block
was entered. -/
structure EnrichTrace where
  result : List Job
  resolution_attempts : Nat
  browser_opened : Bool
deriving DecidableEq

/-- `enrich_jobs_with_urls` (job_scraper.py:267): returns the input
unchanged when Playwright is unavailable; otherwise partitions the batch
by URL validity, returns immediately when nothing needs scraping, and
otherwise opens one browser for the whole batch and appends each scraped
job (updated by `enrichOne`) after the already-valid ones. -/
def enrich_jobs_with_urls (playwright_available : Bool)
    (ri rg : Job → Option String) (jobs : List Job) : EnrichTrace :=
  if playwright_available = false then
    { result := jobs, resolution_attempts := 0, browser_opened := false }
  else
    let split := splitJobs jobs
    if split.2.isEmpty then
      { result := split.1, resolution_attempts := 0, browser_opened := false }
    else
      { result := split.1 ++ split.2.map (enrichOne ri rg),
        resolution_attempts := (split.2.map scrapeAttempted).sum,
        browser_opened := true }

theorem splitJobs_eq_filter (jobs : List Job) :
    splitJobs jobs = (jobs.filter (fun j => is_valid_job_url j.url),
      jobs.filter fun j => !is_valid_job_url j.url) := by
  induction jobs with
  | nil => rfl
  | cons j rest ih =>
    simp only [splitJobs, ih]
    by_cases h : is_valid_job_url j.url
    · simp [List.filter_cons, h]
    · simp [List.filter_cons, h]

theorem splitJobs_all_valid (jobs : List Job)
    (h : ∀ j ∈ jobs, is_valid_job_url j.url = true) :
    splitJobs jobs = (jobs, []) := by
  induction jobs with
  | nil => rfl
  | cons j rest ih =>
    simp only [splitJobs, ih fun x hx => h x (List.mem_cons_of_mem j hx),
      h j (List.mem_cons_self j rest)]
    simp

/-- Claim C6: when every item's link is classified Accepted, `enrich`
performs zero resolution attempts, opens no browser session, and returns
the items unchanged. -/
theorem c6_all_valid_no_scraping (pw : Bool) (ri rg : Job → Option String)
    (jobs : List Job) (h : ∀ j ∈ jobs, is_valid_job_url j.url = true) :
    enrich_jobs_with_urls pw ri rg jobs
      = { result := jobs, resolution_attempts := 0, browser_opened := false } := by
  cases pw with
  | false => rfl
  | true =>
    unfold enrich_jobs_with_urls
    rw [splitJobs_all_valid jobs h]
    simp

/-- Witness for C6 on a batch whose single link is a direct LinkedIn job
view. -/
theorem c6_witness :
    (∀ j ∈ [{ title := "T", company := "C",
              url := "https://linkedin.com/jobs/view/123" : Job }],
      is_valid_job_url j.url = true)
    ∧ enrich_jobs_with_urls true (fun _ => none) (fun _ => none)
        [{ title := "T", company := "C",
           url := "https://linkedin.com/jobs/view/123" : Job }]
      = { result := [{ title := "T", company := "C",
                       url := "https://linkedin.com/jobs/view/123" : Job }],
          resolution_attempts := 0, browser_opened := false } :=
  ⟨by decide, c6_all_valid_no_scraping true _ _ _ (by decide)⟩

/-- Claim C10: the enrichment output is a stable partition of its input —
the items whose original link is valid come first, unmodified and in
input order, followed by the items that were queued for resolution, in
input order, each updated to carry either the resolved URL marked
verified or the unavailable sentinel marked unverified with a
manual-lookup note. -/
theorem c10_stable_partition (ri rg : Job → Option String) (jobs : List Job) :
    (enrich_jobs_with_urls true ri rg jobs).result
      = jobs.filter (fun j => is_valid_job_url j.url)
        ++ (jobs.filter fun j => !is_valid_job_url j.url).map (enrichOne ri rg)
    ∧ ∀ j : Job,
      (∃ u, tryScrapeUrl ri rg j = some u
        ∧ enrichOne ri rg j = { j with url := u, url_verified := some true })
      ∨ (tryScrapeUrl ri rg j = none
        ∧ enrichOne ri rg j
            = { j with
                url := "URL_NOT_AVAILABLE", url_verified := some false,
                url_note := some "Direct job link could not be found. Search manually on job board." }) := by
  constructor
  · unfold enrich_jobs_with_urls
    rw [splitJobs_eq_filter]
    by_cases h : (jobs.filter fun j => !is_valid_job_url j.url).isEmpty
    · have h2 : (jobs.filter fun j => !is_valid_job_url j.url) = [] := by
        cases he : (jobs.filter fun j => !is_valid_job_url j.url) with
        | nil => rfl
        | cons a t => rw [he] at h; simp [List.isEmpty] at h
      simp [h2]
    · simp [h]
  · intro j
    cases htr : tryScrapeUrl ri rg j with
    | some u => exact Or.inl ⟨u, rfl, by simp [enrichOne, htr]⟩
    | none => exact Or.inr ⟨rfl, by simp [enrichOne, htr]⟩

/- ## Claim C1: length and order of the enrichment output -/

/-- Counterexample to claim C1: on a batch whose first item needs
resolution and whose second item is already valid, `enrich` returns the
valid item first — the identifiers are not in input order. -/
theorem c1_counterexample :
    ¬ ((enrich_jobs_with_urls true (fun _ => none) (fun _ => none)
          [{ title := "A", company := "ACME", url := "https://nl.indeed.com/jobs?q=x" : Job },
           { title := "B", company := "Beta", url := "https://acme.com/careers/42" : Job }]).result.map
        Job.title
      = [{ title := "A", company := "ACME", url := "https://nl.indeed.com/jobs?q=x" : Job },
         { title := "B", company := "Beta", url := "https://acme.com/careers/42" : Job }].map
          Job.title) := by
  decide

/-- Claim C1 as amended: `enrich` always returns a list of the same
length as its input carrying the same item identifiers, but reordered
into the stable partition of the input (valid-link items first); the
identifiers form a permutation of the input identifiers rather than the
identical sequence. -/
theorem c1_amended_length_and_perm (pw : Bool) (ri rg : Job → Option String)
    (jobs : List Job) :
    (enrich_jobs_with_urls pw ri rg jobs).result.length = jobs.length
    ∧ ((enrich_jobs_with_urls pw ri rg jobs).result.map fun j => (j.title, j.company)).Perm
        (jobs.map fun j => (j.title, j.company)) := by
  cases pw with
  | false => exact ⟨rfl, List.Perm.refl _⟩
  | true =>
    have hperm : ((jobs.filter fun j => is_valid_job_url j.url)
        ++ (jobs.filter fun j => !is_valid_job_url j.url)).Perm jobs :=
      List.filter_append_perm _ jobs
    unfold enrich_jobs_with_urls
    rw [splitJobs_eq_filter, if_neg (show ¬(true = false) by decide)]
    by_cases h : ((jobs.filter fun j => !is_valid_job_url j.url).isEmpty = true)
    · have h2 : (jobs.filter fun j => !is_valid_job_url j.url) = [] :=
        List.isEmpty_iff.mp h
      rw [if_pos h]
      rw [h2, List.append_nil] at hperm
      exact ⟨hperm.length_eq, hperm.map _⟩
    · rw [if_neg h]
      have hid : ∀ j : Job,
          ((enrichOne ri rg j).title, (enrichOne ri rg j).company) = (j.title, j.company) := by
        intro j
        unfold enrichOne
        cases tryScrapeUrl ri rg j <;> rfl
      constructor
      · rw [List.length_append, List.length_map, ← List.length_append]
        exact hperm.length_eq
      · rw [List.map_append, List.map_map]
        have hmm : ((jobs.filter fun j => !is_valid_job_url j.url).map
              ((fun j : Job => (j.title, j.company)) ∘ enrichOne ri rg))
            = (jobs.filter fun j => !is_valid_job_url j.url).map
                fun j : Job => (j.title, j.company) :=
          List.map_congr_left fun a _ => hid a
        rw [hmm, ← List.map_append]
        exact hperm.map _

/- ## User profile and match scoring
(`score_job_match`, job_finder_agent.py:21-68) -/

/-- One language requirement of the user profile (models/user_profile.py). -/
structure LanguageRequirement where
  language : String
  required : Bool := true
  exclude_if_required : Bool := false
deriving DecidableEq

/-- Location preferences of the user profile. -/
structure LocationPreferences where
  country : String
  cities : List String := []
deriving DecidableEq

/-- The search-criteria fields read by the scoring function. -/
structure SearchCriteria where
  role_variations : List String := []
  location_prefs : LocationPreferences
  languages : List LanguageRequirement := []
deriving DecidableEq

/-- The user-profile fields read by the modelled functions. -/
structure UserProfile where
  name : String := ""
  search_criteria : SearchCriteria
deriving DecidableEq

/-- The additive score accumulated by `score_job_match` before clamping:
role alignment (40 when any word of any focus role occurs in the
lowercased title), location match (20), required-language match (20), and
skill count (20 for at least three skills, 10 for at least one). -/
def raw_job_score (job : Job) (user_profile : UserProfile) : Int :=
  let job_title := pyLower job.title
  let focus_roles := user_profile.search_criteria.role_variations.map pyLower
  let roleScore : Int :=
    if focus_roles.any (fun role => (pySplitWs role).any fun word => pyIn word job_title)
    then 40 else 0
  let locScore : Int :=
    if pyIn (pyLower user_profile.search_criteria.location_prefs.country)
        (pyLower job.location) then 20 else 0
  let description := pyLower job.description
  let requirements := pyLower (String.intercalate " " job.requirements)
  let user_languages :=
    (user_profile.search_criteria.languages.filter fun l => l.required).map
      fun l => pyLower l.language
  let langScore : Int :=
    if user_languages.any (fun lang => pyIn lang description || pyIn lang requirements)
    then 20 else 0
  let skillScore : Int :=
    if job.skills.length ≥ 3 then 20 else if job.skills.length ≥ 1 then 10 else 0
  roleScore + locScore + langScore + skillScore

/-- `score_job_match` (job_finder_agent.py:21): the accumulated score,
clamped into [0, 100] by `min(100, max(0, score))`. -/
def score_job_match (job : Job) (user_profile : UserProfile) : Int :=
  min 100 (max 0 (raw_job_score job user_profile))

/-- Claim C9: for every search-result item and every user profile, the
match score computed before storage lies in the closed interval [0, 100]. -/
theorem c9_score_in_range (job : Job) (user_profile : UserProfile) :
    0 ≤ score_job_match job user_profile ∧ score_job_match job user_profile ≤ 100 := by
  unfold score_job_match
  exact ⟨le_min (by norm_num) (le_max_left 0 _), min_le_left 100 _⟩

/- ## Application materials, file paths and summary
(application_writer_agent.py, workflow.py) -/

/-- `ApplicationMaterials` (models.py). -/
structure ApplicationMaterials where
  company : String := ""
  position : String := ""
  customized_cv : String := ""
  motivation_letter : String := ""
  match_summary : String := ""
deriving DecidableEq

/-- The dictionary returned by `save_application_materials`. -/
structure SavePaths where
  cv_path : String
  letter_path : String
  summary_path : String
  output_directory : String
deriving DecidableEq

/-- ASCII alphanumeric test (Python `str.isalnum` restricted to ASCII;
company names in the data are ASCII). -/
def isPyAlnumAscii (c : Char) : Bool :=
  ('0' ≤ c && c ≤ '9') || ('a' ≤ c && c ≤ 'z') || ('A' ≤ c && c ≤ 'Z')

/-- The sanitised company name computed by `save_application_materials`
(application_writer_agent.py:94-97): non-alphanumeric characters other
than dash and underscore become underscores, then the result is
lowercased. -/
def sanitize_company (company_name : String) : String :=
  pyLower ⟨company_name.data.map fun c =>
    if isPyAlnumAscii c || c = '-' || c = '_' then c else '_'⟩

/-- `save_application_materials` (application_writer_agent.py:79): the
pure path computation; the directory creation and the three file writes
are filesystem effects modelled as succeeding (a write failure raises
inside the caller's per-item `try` and is absorbed by the per-item
failure oracle). `applications_dir` and `date_str` stand for
`APPLICATIONS_DIR` and the current date. -/
def save_application_materials (applications_dir date_str : String)
    (materials : ApplicationMaterials) (company_name : String) : SavePaths :=
  let safe_company := sanitize_company company_name
  let output_dir := applications_dir ++ "/" ++ date_str ++ "/" ++ safe_company
  { cv_path := output_dir ++ "/customized_cv_" ++ safe_company ++ ".md",
    letter_path := output_dir ++ "/motivation_letter_" ++ safe_company ++ ".md",
    summary_path := output_dir ++ "/match_summary_" ++ safe_company ++ ".md",
    output_directory := output_dir }

/-- One entry of `application_results` (workflow.py:112-131): the key set
differs between the success entry, the falsy-materials entry and the
exception entry; absent keys are `none`. -/
structure AppResult where
  success : Bool
  company : String := ""
  position : Option String := none
  cv_path : Option String := none
  letter_path : Option String := none
  summary_path : Option String := none
  output_directory : Option String := none
  timestamp : Option String := none
  error : Option String := none
deriving DecidableEq

/-- Python string interpolation of a possibly-absent value (`None`
renders as the string `None`). -/
def pyShowOpt : Option String → String
  | some s => s
  | none => "None"

/-- The `jobs` and `search_date` fields of the structured search output
(`JobSearchOutput`, models.py) that `run_once_for_api` reads. -/
structure JobSearchOutput where
  jobs : List Job
  total_found : Int := 0
  search_date : String := ""
deriving DecidableEq

/-- The dictionary returned by the workflow coroutines
(`run_once_for_api`, `run_job_search_only`, `run_application_generation`);
keys absent from a particular return site are `none`. -/
structure WorkflowResult where
  success : Bool
  error : Option String := none
  job_count : Option Nat := none
  applications_generated : Option Nat := none
  job_postings : Option (List Job) := none
  applications : Option (List AppResult) := none
  summary : Option String := none
  timestamp : String := ""
deriving DecidableEq

/-- Oracle bundle for one workflow run: the user profile, the outcome of
the search-stage Content Generator call (`Except.error` models a raised
exception anywhere in the search step), the per-job outcome of the
generation-stage call (`Except.error e` models an exception raised inside
the per-item `try`, `Except.ok none` falsy materials, `Except.ok (some m)`
success), and the clock/filesystem constants. -/
structure WorkflowEnv where
  profile : UserProfile
  searchOutcome : Except String JobSearchOutput
  genOutcome : Job → Except String (Option ApplicationMaterials)
  applications_dir : String := "storage/applications"
  date_str : String := ""
  time_str : String := ""
  now : String := ""

/-- The per-item entry appended by the generation loop
(workflow.py:85-131): success entries carry position, file paths and a
timestamp; falsy materials and raised exceptions produce failure entries
with an error message. -/
def appResultFor (env : WorkflowEnv) (job : Job) : AppResult :=
  match env.genOutcome job with
  | Except.error e => { success := false, company := job.company, error := some e }
  | Except.ok none =>
    { success := false, company := job.company,
      error := some "Failed to generate materials" }
  | Except.ok (some m) =>
    let fp := save_application_materials env.applications_dir env.date_str m job.company
    { success := true, company := job.company, position := some job.title,
      cv_path := some fp.cv_path, letter_path := some fp.letter_path,
      summary_path := some fp.summary_path, output_directory := some fp.output_directory,
      timestamp := some env.now }

/-- `_generate_summary` (workflow.py:309-357): the markdown report built
from the job count and the per-item results. -/
def generate_summary (date_str time_str : String) (job_count : Nat)
    (application_results : List AppResult) : String :=
  let successful_applications := application_results.filter fun r => r.success
  let failed_applications := application_results.filter fun r => !r.success
  let header :=
    "\n# Daily Job Search Summary\n\n**Date:** " ++ date_str
      ++ "\n**Time:** " ++ time_str ++ "\n\n## Results\n\n- **Jobs Found:** "
      ++ toString job_count ++ "\n- **Applications Generated:** "
      ++ toString successful_applications.length ++ "\n- **Failed Applications:** "
      ++ toString failed_applications.length ++ "\n\n## Job Postings\n\n"
  let body := String.join (successful_applications.map fun r =>
    "\n### " ++ r.company ++ " - " ++ pyShowOpt r.position
      ++ "\n- **CV:** `" ++ pyShowOpt r.cv_path
      ++ "`\n- **Letter:** `" ++ pyShowOpt r.letter_path
      ++ "`\n- **Summary:** `" ++ pyShowOpt r.summary_path ++ "`\n")
  let failedSection :=
    if failed_applications.isEmpty then ""
    else
      "\n## Failed Applications\n" ++ String.join (failed_applications.map fun r =>
        "- " ++ r.company ++ ": " ++ pyShowOpt r.error ++ "\n")
  header ++ body ++ failedSection
    ++ "\n## Next Steps\n\n1. Review generated application materials in the storage/applications/ directory\n2. Customize any materials that need personal touches\n3. Submit applications through the respective job portals\n4. Track application status and follow-ups\n\n---\nGenerated by JobApplicationWorkflow (OpenAI Agents SDK)\n"

/-- The scored job list built at workflow.py:74-78: each search result
with its `match_score` recomputed. -/
def scored_jobs (profile : UserProfile) (jobs : List Job) : List Job :=
  jobs.map fun j => { j with match_score := score_job_match j profile }

/-- `JobApplicationWorkflow.run_once_for_api` (workflow.py:41-158).  The
whole body sits in a `try` whose `except Exception` returns a failure
dictionary, so a raised search-stage generator call (`searchOutcome =
Except.error e`) produces the failure result rather than an exception;
a falsy or empty structured output produces the "No jobs found" failure;
otherwise the jobs are scored, saved (file write modelled as succeeding),
the generation loop builds one entry per job, and the success dictionary
is returned. -/
def run_once_for_api (env : WorkflowEnv) : WorkflowResult :=
  match env.searchOutcome with
  | Except.error e =>
    { success := false, error := some e, job_count := some 0,
      applications_generated := some 0, timestamp := env.now }
  | Except.ok so =>
    if so.jobs.isEmpty then
      { success := false, error := some "No jobs found", job_count := some 0,
        applications_generated := some 0, timestamp := env.now }
    else
      let jobs_with_scores := scored_jobs env.profile so.jobs
      let application_results := jobs_with_scores.map (appResultFor env)
      let successful_applications := application_results.filter fun r => r.success
      { success := true, job_count := some jobs_with_scores.length,
        applications_generated := some successful_applications.length,
        job_postings := some jobs_with_scores,
        applications := some application_results,
        summary := some (generate_summary env.date_str env.time_str
          jobs_with_scores.length application_results),
        timestamp := env.now }

/-- `JobApplicationWorkflow.run_application_generation` (workflow.py:218):
fails with "No jobs selected" on an empty selection, otherwise runs the
generation loop over the selected jobs only (no re-scoring). -/
def run_application_generation (env : WorkflowEnv) (selected_jobs : List Job) :
    WorkflowResult :=
  if selected_jobs.isEmpty then
    { success := false, error := some "No jobs selected",
      applications_generated := some 0, applications := some [],
      timestamp := env.now }
  else
    let application_results := selected_jobs.map (appResultFor env)
    let successful_applications := application_results.filter fun r => r.success
    { success := true, applications_generated := some successful_applications.length,
      applications := some application_results,
      summary := some (generate_summary env.date_str env.time_str
        selected_jobs.length application_results),
      timestamp := env.now }

/- ## Job registry records and background tasks (app.py) -/

/-- One record of the in-memory `job_status_store` (app.py:57); keys not
yet written are `none`.  The status field holds the literal status
strings used by the code. -/
structure JobStatusRecord where
  status : String := "pending"
  started_at : Option String := none
  completed_at : Option String := none
  jobs_found : Option Nat := none
  applications_generated : Option Nat := none
  error : Option String := none
  error_details : Option String := none
  results : Option WorkflowResult := none
  search_id : Option String := none
deriving DecidableEq

/-- `run_workflow_task` (app.py:141): the record is marked running with
`started_at` set, then the workflow is constructed and awaited.
`workflowRun = Except.ok result` is the (total) outcome of
`run_once_for_api`; `Except.error (e, tb)` models an exception raised by
the task itself before or around the workflow call (e.g. workflow
construction), whose `except` clause records the message and the
`traceback.format_exc()` trace.  On the ok path the record is marked
completed with counters and results; on the error path it is marked
failed. -/
def run_workflow_task (record : JobStatusRecord) (startNow endNow : String)
    (workflowRun : Except (String × String) WorkflowResult) : JobStatusRecord :=
  match workflowRun with
  | Except.ok result =>
    { record with
      status := "completed", started_at := some startNow,
      completed_at := some endNow,
      jobs_found := some (result.job_count.getD 0),
      applications_generated := some (result.applications_generated.getD 0),
      results := some result }
  | Except.error (e, tb) =>
    { record with
      status := "failed", started_at := some startNow,
      completed_at := some endNow, error := some e, error_details := some tb }

/-- The selection of app.py:416: the jobs whose decimal position index
occurs in the selected-id list. -/
def pySelect (jobs : List Job) (selected_job_ids : List String) : List Job :=
  (jobs.enum.filter fun p => selected_job_ids.contains (toString p.1)).map Prod.snd

/-- `run_application_generation_task` (app.py:399): looks up the linked
search id in the record, raises `ValueError("Search ID not found or
invalid")` when it is falsy or not a key of the store (the `except`
clause then marks the record failed with the message and trace `tb`);
otherwise reads the search record's stored results (empty when the
search has not completed), filters the selected jobs by positional
index, runs the generation workflow and marks the record completed. -/
def run_application_generation_task (env : WorkflowEnv)
    (genRecord : JobStatusRecord) (store : String → Option JobStatusRecord)
    (selected_job_ids : List String) (startNow endNow tb : String) : JobStatusRecord :=
  let failedRecord : JobStatusRecord :=
    { genRecord with
      status := "failed", started_at := some startNow,
      completed_at := some endNow,
      error := some "Search ID not found or invalid", error_details := some tb }
  match genRecord.search_id with
  | none => failedRecord
  | some sid =>
    if sid = "" then failedRecord
    else
      match store sid with
      | none => failedRecord
      | some searchRecord =>
        let all_job_postings :=
          ((searchRecord.results).bind fun r => r.job_postings).getD []
        let selected_jobs := pySelect all_job_postings selected_job_ids
        let result := run_application_generation env selected_jobs
        { genRecord with
          status := "completed", started_at := some startNow,
          completed_at := some endNow,
          applications_generated := some (result.applications_generated.getD 0),
          results := some result }

/- ## Claim C2: fate of a Content Generator failure -/

/-- Counterexample environment: the search-stage generator call raises. -/
def env_genfail : WorkflowEnv :=
  { profile := { search_criteria := { location_prefs := { country := "Netherlands" } } },
    searchOutcome := Except.error "generator raised",
    genOutcome := fun _ => Except.ok none }

/-- Counterexample to claim C2: when the underlying Content Generator
invocation raises, `run_once_for_api` absorbs the exception into a
failure result and `run_workflow_task` marks the registry record
"completed", not "failed". -/
theorem c2_counterexample :
    (run_workflow_task { status := "pending" } "s" "e"
        (Except.ok (run_once_for_api env_genfail))).status = "completed"
    ∧ (run_workflow_task { status := "pending" } "s" "e"
        (Except.ok (run_once_for_api env_genfail))).status ≠ "failed" :=
  ⟨rfl, by decide⟩

/-- Claim C2 as amended: a Content Generator failure is caught inside the
workflow, which returns a failure result; the registry record then
transitions to "completed" with `completed_at` set, the failure message
retained only inside the results payload (`success = false`), and no
diagnostic trace written.  Only an exception raised by the task itself
outside the workflow run (e.g. workflow construction) transitions the
record to "failed" with the message and the diagnostic trace retained
and `completed_at` set. -/
theorem c2_amended_generator_failure (record : JobStatusRecord)
    (s e msg tb : String) (env : WorkflowEnv) :
    (run_workflow_task record s e
        (Except.ok (run_once_for_api { env with searchOutcome := Except.error msg }))).status
      = "completed"
    ∧ (run_workflow_task record s e
        (Except.ok (run_once_for_api { env with searchOutcome := Except.error msg }))).completed_at
      = some e
    ∧ (run_once_for_api { env with searchOutcome := Except.error msg }).success = false
    ∧ (run_once_for_api { env with searchOutcome := Except.error msg }).error = some msg
    ∧ (run_workflow_task record s e
        (Except.ok (run_once_for_api { env with searchOutcome := Except.error msg }))).results
      = some (run_once_for_api { env with searchOutcome := Except.error msg })
    ∧ (run_workflow_task record s e
        (Except.ok (run_once_for_api { env with searchOutcome := Except.error msg }))).error_details
      = record.error_details
    ∧ run_workflow_task record s e (Except.error (msg, tb))
      = { record with
          status := "failed", started_at := some s, completed_at := some e,
          error := some msg, error_details := some tb } :=
  ⟨rfl, rfl, rfl, rfl, rfl, rfl, rfl⟩

/- ## Claim C3: dependency resolution for GenerateSelected -/

/-- Claim C3 as amended: an absent or falsy linked search id, or one not
present in the store, immediately fails the GenerateSelected job with the
"Search ID not found or invalid" error (message and trace retained,
`completed_at` set) without invoking the Content Generator; but a linked
job that exists and is not yet Completed has no stored results, so the
selection is empty and the job instead transitions to "completed"
carrying the "No jobs selected" failure payload — again without invoking
the Content Generator (the resulting record is independent of the
generation oracle). -/
theorem c3_amended_dependency (env : WorkflowEnv) (genRecord : JobStatusRecord)
    (store : String → Option JobStatusRecord) (ids : List String) (s e tb : String) :
    (genRecord.search_id = none →
      run_application_generation_task env genRecord store ids s e tb
        = { genRecord with
            status := "failed", started_at := some s, completed_at := some e,
            error := some "Search ID not found or invalid", error_details := some tb })
    ∧ (genRecord.search_id = some "" →
      run_application_generation_task env genRecord store ids s e tb
        = { genRecord with
            status := "failed", started_at := some s, completed_at := some e,
            error := some "Search ID not found or invalid", error_details := some tb })
    ∧ (∀ sid, genRecord.search_id = some sid → store sid = none →
      run_application_generation_task env genRecord store ids s e tb
        = { genRecord with
            status := "failed", started_at := some s, completed_at := some e,
            error := some "Search ID not found or invalid", error_details := some tb })
    ∧ (∀ sid searchRecord, genRecord.search_id = some sid → sid ≠ "" →
        store sid = some searchRecord → searchRecord.results = none →
      run_application_generation_task env genRecord store ids s e tb
        = { genRecord with
            status := "completed", started_at := some s, completed_at := some e,
            applications_generated := some 0,
            results := some { success := false, error := some "No jobs selected",
                              applications_generated := some 0, applications := some [],
                              timestamp := env.now } }) := by
  refine ⟨?_, ?_, ?_, ?_⟩
  · intro h
    unfold run_application_generation_task
    rw [h]
  · intro h
    unfold run_application_generation_task
    rw [h]
    simp
  · intro sid h hstore
    unfold run_application_generation_task
    rw [h]
    by_cases he : sid = ""
    · simp [he]
    · simp [he, hstore]
  · intro sid searchRecord h hne hstore hres
    unfold run_application_generation_task
    rw [h]
    simp [hne, hstore, hres]
    exact ⟨rfl, rfl⟩

/-- Record and store for the C3 scenario: a GenerateSelected record
linked to a search job that is still running. -/
def genRecB : JobStatusRecord := { status := "pending", search_id := some "s1" }

/-- Store containing only the still-running linked search job. -/
def storeRunning : String → Option JobStatusRecord :=
  fun k => if k = "s1" then some { status := "running" } else none

/-- Minimal workflow environment for the C3 scenario. -/
def envSmall : WorkflowEnv :=
  { profile := { search_criteria := { location_prefs := { country := "Netherlands" } } },
    searchOutcome := Except.ok { jobs := [] },
    genOutcome := fun _ => Except.ok none }

/-- Witness for the amended C3 at the concrete still-running scenario. -/
theorem c3_witness :
    (genRecB.search_id = some "s1" ∧ "s1" ≠ ""
     ∧ storeRunning "s1" = some { status := "running" }
     ∧ ({ status := "running" : JobStatusRecord }).results = none)
    ∧ run_application_generation_task envSmall genRecB storeRunning ["0"] "s" "e" "tb"
      = { genRecB with
          status := "completed", started_at := some "s", completed_at := some "e",
          applications_generated := some 0,
          results := some { success := false, error := some "No jobs selected",
                            applications_generated := some 0, applications := some [],
                            timestamp := envSmall.now } } :=
  ⟨⟨rfl, by decide, by decide, rfl⟩,
   (c3_amended_dependency envSmall genRecB storeRunning ["0"] "s" "e" "tb").2.2.2
     "s1" { status := "running" } rfl (by decide) (by decide) rfl⟩

/-- Counterexample to claim C3: a GenerateSelected job whose linked
search job exists but is not yet Completed does not transition to Failed
— it ends "completed" (with a "No jobs selected" failure payload). -/
theorem c3_counterexample :
    (run_application_generation_task envSmall genRecB storeRunning ["0"] "s" "e" "tb").status
      = "completed"
    ∧ (run_application_generation_task envSmall genRecB storeRunning ["0"] "s" "e" "tb").status
      ≠ "failed" :=
  ⟨rfl, by decide⟩

/- ## Claim C4: partial-failure semantics of a FullRun job -/

/-- Whether the generation-stage outcome for a job is a success
(materials produced). -/
def genSuccess (env : WorkflowEnv) (job : Job) : Bool :=
  match env.genOutcome job with
  | Except.ok (some _) => true
  | _ => false

theorem appResultFor_success (env : WorkflowEnv) (j : Job) :
    (appResultFor env j).success = genSuccess env j := by
  unfold appResultFor genSuccess
  cases h : env.genOutcome j with
  | error e => rfl
  | ok m => cases m <;> rfl

theorem count_app_success (env : WorkflowEnv) (l : List Job) :
    ((l.map (appResultFor env)).filter fun r => r.success).length
      = l.countP (genSuccess env) := by
  induction l with
  | nil => rfl
  | cons j t ih =>
    simp only [List.map_cons, List.filter_cons, List.countP_cons, appResultFor_success]
    cases h : genSuccess env j <;> simp [h, ih]

theorem count_app_failure (env : WorkflowEnv) (l : List Job) :
    ((l.map (appResultFor env)).countP fun r => !r.success)
      = l.countP fun j => !genSuccess env j := by
  induction l with
  | nil => rfl
  | cons j t ih =>
    simp only [List.map_cons, List.countP_cons, appResultFor_success, ih]

/-- Claim C4: for a FullRun job whose search stage succeeds (non-empty
results), the registry record ends "completed"; `applications_generated`
equals the number of items whose generation succeeded; the aggregate
payload records one entry per item (failures do not abort the loop),
with exactly one failure entry per failed item, each carrying an error
message. -/
theorem c4_partial_failures_recorded (env : WorkflowEnv) (record : JobStatusRecord)
    (so : JobSearchOutput) (s e : String)
    (hsearch : env.searchOutcome = Except.ok so) (hne : so.jobs ≠ []) :
    (run_workflow_task record s e (Except.ok (run_once_for_api env))).status = "completed"
    ∧ (run_workflow_task record s e (Except.ok (run_once_for_api env))).applications_generated
        = some ((scored_jobs env.profile so.jobs).countP (genSuccess env))
    ∧ (run_once_for_api env).applications
        = some ((scored_jobs env.profile so.jobs).map (appResultFor env))
    ∧ ((scored_jobs env.profile so.jobs).map (appResultFor env)).length = so.jobs.length
    ∧ (((scored_jobs env.profile so.jobs).map (appResultFor env)).countP fun r => !r.success)
        = ((scored_jobs env.profile so.jobs).countP fun j => !genSuccess env j)
    ∧ ∀ r ∈ (scored_jobs env.profile so.jobs).map (appResultFor env),
        r.success = false → r.error.isSome = true := by
  have hie : so.jobs.isEmpty = false := by
    cases hj : so.jobs with
    | nil => exact absurd hj hne
    | cons a t => rfl
  have hro : run_once_for_api env =
      { success := true,
        job_count := some (scored_jobs env.profile so.jobs).length,
        applications_generated :=
          some (((scored_jobs env.profile so.jobs).map (appResultFor env)).filter
            fun r => r.success).length,
        job_postings := some (scored_jobs env.profile so.jobs),
        applications := some ((scored_jobs env.profile so.jobs).map (appResultFor env)),
        summary := some (generate_summary env.date_str env.time_str
          (scored_jobs env.profile so.jobs).length
          ((scored_jobs env.profile so.jobs).map (appResultFor env))),
        timestamp := env.now } := by
    unfold run_once_for_api
    rw [hsearch]
    simp only [hie]
    simp
  refine ⟨rfl, ?_, ?_, ?_, ?_, ?_⟩
  · show some ((run_once_for_api env).applications_generated.getD 0) = _
    rw [hro]
    show some ((((scored_jobs env.profile so.jobs).map (appResultFor env)).filter
      fun r => r.success).length) = _
    rw [count_app_success]
  · rw [hro]
  · simp [scored_jobs]
  · exact count_app_failure env _
  · intro r hr hfail
    rcases List.mem_map.mp hr with ⟨j, _, rfl⟩
    cases h : env.genOutcome j with
    | error err => simp [appResultFor, h]
    | ok m =>
      cases m with
      | none => simp [appResultFor, h]
      | some mm => simp [appResultFor, h] at hfail

/-- The four search results of the C4 scenario. -/
def jobs4 : List Job :=
  [{ title := "Learning Designer", company := "Alpha",
     location := "Amsterdam, Netherlands", url := "https://alpha.example/jobs/1",
     skills := ["design", "facilitation", "evaluation"] },
   { title := "Trainer", company := "Beta",
     location := "Rotterdam, Netherlands", url := "https://beta.example/jobs/2" },
   { title := "Instructional Designer", company := "Gamma",
     location := "Utrecht, Netherlands", url := "https://gamma.example/jobs/3" },
   { title := "Course Designer", company := "Delta",
     location := "The Hague, Netherlands", url := "https://delta.example/jobs/4" }]

/-- Environment of the C4 scenario: the search succeeds with four
results and the generation stage raises for exactly one of them. -/
def env4 : WorkflowEnv :=
  { profile :=
      { search_criteria :=
          { role_variations := ["Trainer"],
            location_prefs := { country := "Netherlands" },
            languages := [{ language := "English" }] } },
    searchOutcome := Except.ok { jobs := jobs4, search_date := "2025-10-12" },
    genOutcome := fun j =>
      if j.company = "Beta" then Except.error "generation failed"
      else Except.ok (some { company := j.company }) }

/-- Witness for C4: with four results and one failing generation the job
ends "completed" with `applications_generated = 3` and exactly one
recorded per-item failure. -/
theorem c4_witness :
    (env4.searchOutcome = Except.ok { jobs := jobs4, search_date := "2025-10-12" }
     ∧ ({ jobs := jobs4, search_date := "2025-10-12" } : JobSearchOutput).jobs ≠ [])
    ∧ (run_workflow_task { status := "pending" } "s" "e"
        (Except.ok (run_once_for_api env4))).status = "completed"
    ∧ (run_workflow_task { status := "pending" } "s" "e"
        (Except.ok (run_once_for_api env4))).applications_generated = some 3
    ∧ (((scored_jobs env4.profile jobs4).map (appResultFor env4)).countP
        fun r => !r.success) = 1 := by
  have h := c4_partial_failures_recorded env4 { status := "pending" }
    { jobs := jobs4, search_date := "2025-10-12" } "s" "e" rfl (by decide)
  refine ⟨⟨rfl, by decide⟩, h.1, ?_, by decide⟩
  rw [h.2.1]
  decide
